import Mathlib

/-!
Verification of the wealthos-backend budget service.

The Python sources (`budget.py`, `blueprint.py`) are embedded shallowly:
monetary values and percentages become rationals (`ℚ`), Python's
`round(x, 2)` (round-half-to-even on the second decimal) becomes `round2`,
lists of pydantic models become Lean lists of structures, and the JSON
records returned by the endpoints become Lean structures.
-/

/-- Round-half-to-even to the nearest integer, the tie-breaking rule used by
Python's builtin `round`. -/
def rhe (q : ℚ) : ℤ :=
  if q - ⌊q⌋ < 1/2 then ⌊q⌋
  else if 1/2 < q - ⌊q⌋ then ⌊q⌋ + 1
  else if ⌊q⌋ % 2 = 0 then ⌊q⌋ else ⌊q⌋ + 1

/-- Embedding of Python's `round(q, 2)`: round half to even at two decimal
digits. -/
def round2 (q : ℚ) : ℚ := (rhe (q * 100) : ℚ) / 100

/-- A rational is an exact two-decimal quantity (a whole number of cents). -/
def IsCent (q : ℚ) : Prop := ∃ k : ℤ, (k : ℚ) / 100 = q

theorem rhe_intCast (k : ℤ) : rhe (k : ℚ) = k := by
  unfold rhe
  rw [Int.floor_intCast]
  norm_num

theorem le_rhe (q : ℚ) : q - 1/2 ≤ (rhe q : ℚ) := by
  have h1 : (⌊q⌋ : ℚ) ≤ q := Int.floor_le q
  have h2 : q < ⌊q⌋ + 1 := Int.lt_floor_add_one q
  unfold rhe
  split_ifs with ha hb hc <;> push_cast <;> linarith

theorem rhe_le (q : ℚ) : (rhe q : ℚ) ≤ q + 1/2 := by
  have h1 : (⌊q⌋ : ℚ) ≤ q := Int.floor_le q
  have h2 : q < ⌊q⌋ + 1 := Int.lt_floor_add_one q
  unfold rhe
  split_ifs with ha hb hc <;> push_cast <;> linarith

theorem floor_le_rhe (q : ℚ) : ⌊q⌋ ≤ rhe q := by
  unfold rhe
  split_ifs <;> omega

theorem rhe_mono {p q : ℚ} (h : p ≤ q) : rhe p ≤ rhe q := by
  have hf : ⌊p⌋ ≤ ⌊q⌋ := Int.floor_mono h
  rcases eq_or_lt_of_le hf with heq | hlt
  · have heqQ : (⌊p⌋ : ℚ) = (⌊q⌋ : ℚ) := by exact_mod_cast heq
    unfold rhe
    split_ifs <;> try omega
    all_goals (exfalso; first | omega | linarith)
  · unfold rhe
    split_ifs <;> omega

theorem round2_mono {p q : ℚ} (h : p ≤ q) : round2 p ≤ round2 q := by
  have h100 : p * 100 ≤ q * 100 := by linarith
  have := rhe_mono h100
  have hc : ((rhe (p * 100) : ℚ)) ≤ ((rhe (q * 100) : ℚ)) := by exact_mod_cast this
  unfold round2
  linarith

theorem round2_err (q : ℚ) : |round2 q - q| ≤ 1/200 := by
  have h1 := le_rhe (q * 100)
  have h2 := rhe_le (q * 100)
  rw [abs_le]
  unfold round2
  constructor <;> linarith

theorem round2_zero : round2 0 = 0 := by
  have h : ((0 : ℚ) * 100) = ((0 : ℤ) : ℚ) := by norm_num
  unfold round2
  rw [h, rhe_intCast]
  norm_num

theorem round2_nonneg {q : ℚ} (h : 0 ≤ q) : 0 ≤ round2 q := by
  have := round2_mono h
  rwa [round2_zero] at this

theorem round2_isCent (q : ℚ) : IsCent (round2 q) := ⟨rhe (q * 100), rfl⟩

theorem round2_cent {q : ℚ} (h : IsCent q) : round2 q = q := by
  obtain ⟨k, hk⟩ := h
  subst hk
  unfold round2
  rw [div_mul_cancel₀ _ (by norm_num : (100 : ℚ) ≠ 0), rhe_intCast]

theorem round2_round2 (q : ℚ) : round2 (round2 q) = round2 q :=
  round2_cent (round2_isCent q)

/-- Embedding of the pydantic model `BudgetLineItem` in `budget.py`:
a named expense with a monetary amount. The pydantic validation
constraints (`min_length=1, max_length=80` on `name`, `ge=0` on `amount`)
become hypotheses where claims need them. -/
structure BudgetLineItem where
  name : String
  amount : ℚ
deriving DecidableEq

/-- Embedding of the pydantic model `BudgetRequest` in `budget.py`; the
default values mirror the pydantic `Field(default=...)` declarations. -/
structure BudgetRequest where
  monthly_after_tax_income : ℚ
  fixed_expenses : List BudgetLineItem := []
  variable_expenses : List BudgetLineItem := []
  target_needs_pct : ℚ := 50/100
  target_wants_pct : ℚ := 30/100
  target_savings_pct : ℚ := 20/100
  emergency_fund_goal : ℚ := 0
  debt_extra_payment_goal : ℚ := 0
  investing_goal : ℚ := 0

/-- The `allocation_plan` record built by `compute_budget`. -/
structure AllocationPlan where
  emergency : ℚ
  debt_extra : ℚ
  investing : ℚ
  remaining_buffer : ℚ
deriving DecidableEq

/-- One entry of the `top_variable_items` list built by `_top_items`. -/
structure TopItem where
  name : String
  amount : ℚ
deriving DecidableEq

/-- The recommendation records appended by `compute_budget`. The f-string
`message` fields are modelled by their numeric payloads (the interpolated
dollar figures); the fixed `next_steps` guidance strings are kept verbatim. -/
inductive Recommendation where
  | warning (message : String)
  | needs_over_target (overage : ℚ) (next_steps : List String)
  | wants_over_target (overage : ℚ) (next_steps : List String)
      (top_variable_items : List TopItem)
  | deficit (shortfall : ℚ) (next_steps : List String) (needed_cut_per_week : ℚ)
  | surplus (amount : ℚ) (next_steps : List String)
deriving DecidableEq

/-- The dictionary returned by `compute_budget`, flattened: the nested
`totals`/`targets`/`actuals` sub-dictionaries become flat fields. -/
structure BudgetReport where
  income : ℚ
  fixed_total : ℚ
  variable_total : ℚ
  total_spend : ℚ
  net_cash_flow : ℚ
  needs_target : ℚ
  wants_target : ℚ
  savings_target : ℚ
  pct_needs : ℚ
  pct_wants : ℚ
  pct_savings : ℚ
  needs_actual : ℚ
  wants_actual : ℚ
  savings_actual : ℚ
  allocation_plan : AllocationPlan
  recommendations : List Recommendation
  disclaimer : String

/-- Embedding of `_sum_items`: `round(sum(i.amount for i in items), 2)`. -/
def sumItems (items : List BudgetLineItem) : ℚ :=
  round2 (items.map (fun i => i.amount)).sum

/-- The comparator realising Python's `sorted(items, key=amount,
reverse=True)`: a stable sort that puts larger amounts first and keeps
equal amounts in original order. -/
def amountGE (a b : BudgetLineItem) : Bool := decide (b.amount ≤ a.amount)

/-- Embedding of `_top_items`: stable-sort by amount descending, take the
first `n`, round each listed amount to 2 decimals. -/
def topItems (items : List BudgetLineItem) (n : Nat) : List TopItem :=
  ((items.mergeSort amountGE).take n).map (fun i => ⟨i.name, round2 i.amount⟩)

/-- `income = round(req.monthly_after_tax_income, 2)` in `compute_budget`. -/
def incomeR (req : BudgetRequest) : ℚ := round2 req.monthly_after_tax_income

/-- `fixed_total` local of `compute_budget`. -/
def fixedTotal (req : BudgetRequest) : ℚ := sumItems req.fixed_expenses

/-- `variable_total` local of `compute_budget`. -/
def variableTotal (req : BudgetRequest) : ℚ := sumItems req.variable_expenses

/-- `total_spend = round(fixed_total + variable_total, 2)`. -/
def totalSpend (req : BudgetRequest) : ℚ :=
  round2 (fixedTotal req + variableTotal req)

/-- `net_cash_flow = round(income - total_spend, 2)`. -/
def netCashFlow (req : BudgetRequest) : ℚ :=
  round2 (incomeR req - totalSpend req)

/-- `needs_target = round(income * req.target_needs_pct, 2)`. -/
def needsTarget (req : BudgetRequest) : ℚ :=
  round2 (incomeR req * req.target_needs_pct)

/-- `wants_target = round(income * req.target_wants_pct, 2)`. -/
def wantsTarget (req : BudgetRequest) : ℚ :=
  round2 (incomeR req * req.target_wants_pct)

/-- `savings_target = round(income * req.target_savings_pct, 2)`. -/
def savingsTarget (req : BudgetRequest) : ℚ :=
  round2 (incomeR req * req.target_savings_pct)

/-- `needs_actual = fixed_total` (classification policy of the code). -/
def needsActual (req : BudgetRequest) : ℚ := fixedTotal req

/-- `wants_actual = variable_total`. -/
def wantsActual (req : BudgetRequest) : ℚ := variableTotal req

/-- `savings_actual = max(0.0, net_cash_flow)`. -/
def savingsActual (req : BudgetRequest) : ℚ := max 0 (netCashFlow req)

/-- The sum of the three target percentages tested by the warning branch. -/
def pctsSum (req : BudgetRequest) : ℚ :=
  req.target_needs_pct + req.target_wants_pct + req.target_savings_pct

/-- The fixed `warning` message string. -/
def warnMsg : String :=
  "Your target percentages do not add up to 100%. Consider using 0.50 / 0.30 / 0.20."

/-- The two fixed guidance strings of the `needs_over_target` branch. -/
def needsSteps : List String :=
  ["Review housing, utilities, insurance, debt payments for refinancing or reductions.",
   "Check subscriptions that are billed as \x27fixed\x27 (phone, streaming, memberships)."]

/-- The two fixed guidance strings of the `wants_over_target` branch. -/
def wantsSteps : List String :=
  ["Cap discretionary categories (dining out, shopping, entertainment).",
   "Set weekly limits and turn on spending alerts."]

/-- The three fixed guidance strings of the `deficit` branch. -/
def deficitSteps : List String :=
  ["Cut variable expenses first (subscriptions, dining, discretionary).",
   "Then renegotiate fixed bills (insurance, phone/internet) or refinance high-interest debt.",
   "If still short, consider increasing income (overtime, side income)."]

/-- The two fixed guidance strings of the `surplus` branch. -/
def surplusSteps : List String :=
  ["Automate transfers on payday: emergency fund, then debt, then investing (in that order, generally).",
   "Keep a small buffer in checking to prevent overdrafts."]

/-- The ordered `recommendations` list built by `compute_budget`:
warning, needs_over_target, wants_over_target, then deficit-or-surplus,
each of the first three present only when its condition holds. -/
def recsList (req : BudgetRequest) : List Recommendation :=
  (if pctsSum req ≠ 1 then [Recommendation.warning warnMsg] else [])
  ++ (if needsTarget req < needsActual req then
        [Recommendation.needs_over_target
          (round2 (needsActual req - needsTarget req)) needsSteps] else [])
  ++ (if wantsTarget req < wantsActual req then
        [Recommendation.wants_over_target
          (round2 (wantsActual req - wantsTarget req)) wantsSteps
          (topItems req.variable_expenses 5)] else [])
  ++ (if netCashFlow req < 0 then
        [Recommendation.deficit |netCashFlow req| deficitSteps
          (round2 (|netCashFlow req| / (433/100)))]
      else
        [Recommendation.surplus (netCashFlow req) surplusSteps])

/-- `em = min(req.emergency_fund_goal, remaining)` with `remaining`
initially `net_cash_flow`. -/
def allocEm (req : BudgetRequest) : ℚ :=
  min req.emergency_fund_goal (netCashFlow req)

/-- `remaining = round(remaining - em, 2)` after the emergency step. -/
def remaining1 (req : BudgetRequest) : ℚ :=
  round2 (netCashFlow req - allocEm req)

/-- `debt = min(req.debt_extra_payment_goal, remaining)`. -/
def allocDebt (req : BudgetRequest) : ℚ :=
  min req.debt_extra_payment_goal (remaining1 req)

/-- `remaining = round(remaining - debt, 2)` after the debt step. -/
def remaining2 (req : BudgetRequest) : ℚ :=
  round2 (remaining1 req - allocDebt req)

/-- `inv = min(req.investing_goal, remaining)`. -/
def allocInv (req : BudgetRequest) : ℚ :=
  min req.investing_goal (remaining2 req)

/-- `remaining = round(remaining - inv, 2)` after the investing step. -/
def remaining3 (req : BudgetRequest) : ℚ :=
  round2 (remaining2 req - allocInv req)

/-- The `allocation_plan` record: computed sequentially when
`net_cash_flow > 0`, otherwise the all-zero default. -/
def allocationPlan (req : BudgetRequest) : AllocationPlan :=
  if 0 < netCashFlow req then
    ⟨round2 (allocEm req), round2 (allocDebt req), round2 (allocInv req),
     round2 (remaining3 req)⟩
  else ⟨0, 0, 0, 0⟩

/-- Embedding of `compute_budget` in `budget.py`: assembles the report
from the locals above exactly as the returned dictionary does. -/
def compute_budget (req : BudgetRequest) : BudgetReport where
  income := incomeR req
  fixed_total := fixedTotal req
  variable_total := variableTotal req
  total_spend := totalSpend req
  net_cash_flow := netCashFlow req
  needs_target := needsTarget req
  wants_target := wantsTarget req
  savings_target := savingsTarget req
  pct_needs := req.target_needs_pct
  pct_wants := req.target_wants_pct
  pct_savings := req.target_savings_pct
  needs_actual := round2 (needsActual req)
  wants_actual := round2 (wantsActual req)
  savings_actual := round2 (savingsActual req)
  allocation_plan := allocationPlan req
  recommendations := recsList req
  disclaimer := "Educational output only; not financial, tax, or legal advice."

/-- The kind of a recommendation record (its `type` field in the code). -/
inductive RecTag where
  | warnTag
  | needsTag
  | wantsTag
  | deficitTag
  | surplusTag
deriving DecidableEq

/-- Map a recommendation record to its kind. -/
def tagOf : Recommendation → RecTag
  | .warning _ => .warnTag
  | .needs_over_target _ _ => .needsTag
  | .wants_over_target _ _ _ => .wantsTag
  | .deficit _ _ _ => .deficitTag
  | .surplus _ _ => .surplusTag

/-- Extract the `needed_cut_per_week` figure of the first deficit
recommendation, if any. -/
def deficitWeekly : List Recommendation → Option ℚ
  | [] => none
  | .deficit _ _ w :: _ => some w
  | _ :: rest => deficitWeekly rest

/-- Extract the `top_variable_items` list of the first wants_over_target
recommendation, if any. -/
def wantsItems : List Recommendation → Option (List TopItem)
  | [] => none
  | .wants_over_target _ _ items :: _ => some items
  | _ :: rest => wantsItems rest

/-- Embedding of the Python values a profile dictionary may hold in
`blueprint.py`. Numeric strings are not modelled (no claim exercises
`float` applied to a truthy string); all claims touch only absent, falsy,
or numeric values. -/
inductive PyValue where
  | pynone
  | pybool (b : Bool)
  | pynum (q : ℚ)
  | pystr (s : String)
deriving DecidableEq

/-- Python truthiness test (`or` falls through on falsy values):
`None`, `False`, `0`, and `""` are falsy. -/
def pyFalsy : PyValue → Bool
  | .pynone => true
  | .pybool b => !b
  | .pynum q => decide (q = 0)
  | .pystr s => decide (s = "")

/-- Embedding of Python's `float(...)` conversion on the values a profile
may hold. Conversion of (truthy) strings is not modelled and yields
`none`, as does `float(None)`; no claim reaches those cases. -/
def pyToFloat : PyValue → Option ℚ
  | .pynum q => some q
  | .pybool b => some (if b then 1 else 0)
  | .pynone => none
  | .pystr _ => none

/-- `profile.get(key)` on a dictionary modelled as an association list. -/
def dictGet (m : List (String × PyValue)) (k : String) : Option PyValue :=
  (m.find? (fun p => p.1 == k)).map (fun p => p.2)

/-- The `monthlyBudget` record returned by `generate_blueprint`. -/
structure MonthlyBudget where
  income : ℚ
  fixed : ℚ
  «variable» : ℚ
  savingsTarget : ℚ
  netCashFlow : ℚ
deriving DecidableEq

/-- Embedding of `generate_blueprint` in `blueprint.py`:
`income = float(profile.get("monthlyIncome", 0) or 0)`, then the fixed
50/25/20 splits, each rounded to 2 decimals independently, and the
leftover net cash flow. Returns `none` exactly when the `float(...)`
conversion is not modelled/raises. -/
def generate_blueprint (profile : List (String × PyValue))
    (parsed_docs : List (List (String × PyValue))) : Option MonthlyBudget :=
  let v0 := (dictGet profile "monthlyIncome").getD (.pynum 0)
  let v := if pyFalsy v0 then PyValue.pynum 0 else v0
  (pyToFloat v).map (fun income =>
    let fixed := round2 (income * (50/100))
    let varSplit := round2 (income * (25/100))
    let savings_target := round2 (income * (20/100))
    let net_cash_flow := round2 (income - fixed - varSplit - savings_target)
    ⟨income, fixed, varSplit, savings_target, net_cash_flow⟩)

/-- The deficit example request of the spec: income 2000, one fixed
expense `rent` of 1800, one variable expense `misc` of 500, default
percentages and goals. -/
def reqDeficit : BudgetRequest :=
  { monthly_after_tax_income := 2000,
    fixed_expenses := [⟨"rent", 1800⟩],
    variable_expenses := [⟨"misc", 500⟩] }

/-- C3: for every request, `fixed_total` and `variable_total` are the
independently rounded sums of their item amounts, `total_spend` is the
rounded sum of the two totals, and `net_cash_flow` is the rounded
difference of the rounded income and `total_spend`. -/
theorem totals_spec (req : BudgetRequest) :
    (compute_budget req).fixed_total
        = round2 ((req.fixed_expenses.map (fun i => i.amount)).sum) ∧
    (compute_budget req).variable_total
        = round2 ((req.variable_expenses.map (fun i => i.amount)).sum) ∧
    (compute_budget req).total_spend
        = round2 ((compute_budget req).fixed_total + (compute_budget req).variable_total) ∧
    (compute_budget req).net_cash_flow
        = round2 (round2 req.monthly_after_tax_income - (compute_budget req).total_spend) :=
  ⟨rfl, rfl, rfl, rfl⟩

/-- C8: `generate_blueprint` applies the fixed 50/25/20 splits to the
monthly income figure, each rounded to 2 decimals independently, with
`netCashFlow` the rounded leftover, for any parsed-docs list; and income
4000 yields fixed 2000, variable 1000, savingsTarget 800, netCashFlow 200. -/
theorem blueprint_splits (I : ℚ) (profile : List (String × PyValue))
    (docs : List (List (String × PyValue)))
    (h : dictGet profile "monthlyIncome" = some (.pynum I)) :
    generate_blueprint profile docs =
      some ⟨I, round2 (I * (50/100)), round2 (I * (25/100)), round2 (I * (20/100)),
        round2 (I - round2 (I * (50/100)) - round2 (I * (25/100)) - round2 (I * (20/100)))⟩ ∧
    generate_blueprint [("monthlyIncome", .pynum 4000)] []
      = some ⟨4000, 2000, 1000, 800, 200⟩ := by
  constructor
  · unfold generate_blueprint
    rw [h]
    by_cases hI : I = 0
    · subst hI
      simp [pyFalsy, pyToFloat]
    · simp [pyFalsy, hI, pyToFloat]
  · norm_num [generate_blueprint, dictGet, pyFalsy, pyToFloat, round2, rhe]

/-- Witness for C8 at income 4000 over the singleton profile. -/
theorem blueprint_splits_witness :
    dictGet [("monthlyIncome", .pynum 4000)] "monthlyIncome" = some (.pynum 4000) ∧
    generate_blueprint [("monthlyIncome", .pynum 4000)] []
      = some ⟨4000, 2000, 1000, 800, 200⟩ :=
  ⟨by simp [dictGet], (blueprint_splits 4000 [("monthlyIncome", .pynum 4000)] []
      (by simp [dictGet])).2⟩

/-- C10: when `"monthlyIncome"` is absent from the profile, or maps to a
falsy value (`0`, `None`, `False`, `""`), `generate_blueprint` treats the
income as 0 and returns an all-zero monthly budget, for any parsed-docs
list. -/
theorem blueprint_default_zero (profile : List (String × PyValue))
    (docs : List (List (String × PyValue)))
    (h : dictGet profile "monthlyIncome" = none ∨
      ∃ v, dictGet profile "monthlyIncome" = some v ∧ pyFalsy v = true) :
    generate_blueprint profile docs = some ⟨0, 0, 0, 0, 0⟩ := by
  unfold generate_blueprint
  rcases h with h | ⟨v, hv, hf⟩
  · rw [h]
    simp [pyFalsy, pyToFloat, round2_zero]
  · rw [hv]
    simp [Option.getD, hf, pyToFloat, round2_zero]

/-- Witness for C10 on the empty profile (key absent). -/
theorem blueprint_default_zero_witness :
    (dictGet [] "monthlyIncome" = none ∨
      ∃ v, dictGet [] "monthlyIncome" = some v ∧ pyFalsy v = true) ∧
    generate_blueprint [] [] = some ⟨0, 0, 0, 0, 0⟩ :=
  ⟨Or.inl rfl, blueprint_default_zero [] [] (Or.inl rfl)⟩

/-- C1: when `net_cash_flow > 0` the allocation plan is the sequential
priority allocation (emergency fund, then debt extra, then investing,
each `min(goal, remaining)` with `remaining` rounded to 2 decimals after
each step, the leftover becoming `remaining_buffer`), and the four plan
figures sum to `net_cash_flow` within the rounding tolerance `3/100`;
when `net_cash_flow <= 0` all four figures are 0. -/
theorem alloc_plan_spec (req : BudgetRequest) :
    (0 < netCashFlow req →
      (compute_budget req).allocation_plan =
        ⟨round2 (min req.emergency_fund_goal (netCashFlow req)),
         round2 (min req.debt_extra_payment_goal (remaining1 req)),
         round2 (min req.investing_goal (remaining2 req)),
         round2 (remaining3 req)⟩ ∧
      remaining1 req = round2 (netCashFlow req - min req.emergency_fund_goal (netCashFlow req)) ∧
      remaining2 req = round2 (remaining1 req - min req.debt_extra_payment_goal (remaining1 req)) ∧
      remaining3 req = round2 (remaining2 req - min req.investing_goal (remaining2 req)) ∧
      |(compute_budget req).allocation_plan.emergency
        + (compute_budget req).allocation_plan.debt_extra
        + (compute_budget req).allocation_plan.investing
        + (compute_budget req).allocation_plan.remaining_buffer
        - netCashFlow req| ≤ 3/100) ∧
    (netCashFlow req ≤ 0 → (compute_budget req).allocation_plan = ⟨0, 0, 0, 0⟩) := by
  constructor
  · intro hpos
    have hplan : (compute_budget req).allocation_plan =
        ⟨round2 (allocEm req), round2 (allocDebt req), round2 (allocInv req),
         round2 (remaining3 req)⟩ := by
      show allocationPlan req = _
      unfold allocationPlan
      rw [if_pos hpos]
    refine ⟨hplan, rfl, rfl, rfl, ?_⟩
    rw [hplan]
    have h1 : |remaining1 req - (netCashFlow req - allocEm req)| ≤ 1/200 := round2_err _
    have h2 : |remaining2 req - (remaining1 req - allocDebt req)| ≤ 1/200 := round2_err _
    have h3 : |remaining3 req - (remaining2 req - allocInv req)| ≤ 1/200 := round2_err _
    have h4 : |round2 (allocEm req) - allocEm req| ≤ 1/200 := round2_err _
    have h5 : |round2 (allocDebt req) - allocDebt req| ≤ 1/200 := round2_err _
    have h6 : |round2 (allocInv req) - allocInv req| ≤ 1/200 := round2_err _
    have hbuf : round2 (remaining3 req) = remaining3 req := round2_round2 _
    rw [abs_le] at h1 h2 h3 h4 h5 h6 ⊢
    simp only [hbuf]
    constructor <;> linarith [h1.1, h1.2, h2.1, h2.2, h3.1, h3.2,
      h4.1, h4.2, h5.1, h5.2, h6.1, h6.2]
  · intro hnonpos
    show allocationPlan req = _
    unfold allocationPlan
    rw [if_neg (not_lt.mpr hnonpos)]

/-- Shared concrete request for the allocation-plan witnesses: income
1000, no expenses, goals 300 / 200 / 100. -/
def reqGoals : BudgetRequest :=
  { monthly_after_tax_income := 1000,
    emergency_fund_goal := 300,
    debt_extra_payment_goal := 200,
    investing_goal := 100 }

/-- Witness for C1 at `reqGoals`, where the surplus is positive. -/
theorem alloc_plan_spec_witness :
    0 < netCashFlow reqGoals ∧
    |(compute_budget reqGoals).allocation_plan.emergency
      + (compute_budget reqGoals).allocation_plan.debt_extra
      + (compute_budget reqGoals).allocation_plan.investing
      + (compute_budget reqGoals).allocation_plan.remaining_buffer
      - netCashFlow reqGoals| ≤ 3/100 := by
  have hpos : 0 < netCashFlow reqGoals := by
    norm_num [reqGoals, netCashFlow, incomeR, totalSpend, fixedTotal, variableTotal,
      sumItems, round2, rhe]
  exact ⟨hpos, ((alloc_plan_spec reqGoals).1 hpos).2.2.2.2⟩

/-- C9: with non-negative goal amounts, every allocation-plan figure is
non-negative, each allocated bucket is at most its goal rounded to 2
decimals, and the intermediate `remaining` value never goes negative at
any allocation step. -/
theorem alloc_plan_bounds (req : BudgetRequest)
    (hg1 : 0 ≤ req.emergency_fund_goal)
    (hg2 : 0 ≤ req.debt_extra_payment_goal)
    (hg3 : 0 ≤ req.investing_goal) :
    (0 ≤ (compute_budget req).allocation_plan.emergency ∧
     0 ≤ (compute_budget req).allocation_plan.debt_extra ∧
     0 ≤ (compute_budget req).allocation_plan.investing ∧
     0 ≤ (compute_budget req).allocation_plan.remaining_buffer) ∧
    ((compute_budget req).allocation_plan.emergency ≤ round2 req.emergency_fund_goal ∧
     (compute_budget req).allocation_plan.debt_extra ≤ round2 req.debt_extra_payment_goal ∧
     (compute_budget req).allocation_plan.investing ≤ round2 req.investing_goal) ∧
    (0 < netCashFlow req →
      0 ≤ remaining1 req ∧ 0 ≤ remaining2 req ∧ 0 ≤ remaining3 req) := by
  have hr1 : 0 < netCashFlow req → 0 ≤ remaining1 req := fun hpos =>
    round2_nonneg (by
      have := min_le_right req.emergency_fund_goal (netCashFlow req)
      unfold allocEm
      linarith)
  have hr2 : 0 < netCashFlow req → 0 ≤ remaining2 req := fun hpos =>
    round2_nonneg (by
      have := min_le_right req.debt_extra_payment_goal (remaining1 req)
      unfold allocDebt
      linarith [hr1 hpos])
  have hr3 : 0 < netCashFlow req → 0 ≤ remaining3 req := fun hpos =>
    round2_nonneg (by
      have := min_le_right req.investing_goal (remaining2 req)
      unfold allocInv
      linarith [hr2 hpos])
  by_cases hpos : 0 < netCashFlow req
  · have hplan : (compute_budget req).allocation_plan =
        ⟨round2 (allocEm req), round2 (allocDebt req), round2 (allocInv req),
         round2 (remaining3 req)⟩ := by
      show allocationPlan req = _
      unfold allocationPlan
      rw [if_pos hpos]
    rw [hplan]
    refine ⟨⟨?_, ?_, ?_, ?_⟩, ⟨?_, ?_, ?_⟩, fun _ => ⟨hr1 hpos, hr2 hpos, hr3 hpos⟩⟩
    · exact round2_nonneg (le_min hg1 hpos.le)
    · exact round2_nonneg (le_min hg2 (hr1 hpos))
    · exact round2_nonneg (le_min hg3 (hr2 hpos))
    · exact round2_nonneg (hr3 hpos)
    · exact round2_mono (min_le_left _ _)
    · exact round2_mono (min_le_left _ _)
    · exact round2_mono (min_le_left _ _)
  · have hplan : (compute_budget req).allocation_plan = ⟨0, 0, 0, 0⟩ := by
      show allocationPlan req = _
      unfold allocationPlan
      rw [if_neg hpos]
    rw [hplan]
    exact ⟨⟨le_refl 0, le_refl 0, le_refl 0, le_refl 0⟩,
      ⟨round2_nonneg hg1, round2_nonneg hg2, round2_nonneg hg3⟩,
      fun h => absurd h hpos⟩

/-- Witness for C9 at `reqGoals`. -/
theorem alloc_plan_bounds_witness :
    (0 ≤ reqGoals.emergency_fund_goal ∧ 0 ≤ reqGoals.debt_extra_payment_goal ∧
      0 ≤ reqGoals.investing_goal) ∧
    0 ≤ (compute_budget reqGoals).allocation_plan.remaining_buffer ∧
    (compute_budget reqGoals).allocation_plan.emergency ≤ round2 reqGoals.emergency_fund_goal := by
  have h := alloc_plan_bounds reqGoals (by norm_num [reqGoals]) (by norm_num [reqGoals])
    (by norm_num [reqGoals])
  exact ⟨⟨by norm_num [reqGoals], by norm_num [reqGoals], by norm_num [reqGoals]⟩,
    h.1.2.2.2, h.2.1.1⟩

/-- C2 (amended): when `net_cash_flow < 0` the recommendations contain a
deficit record with the absolute shortfall, the three fixed guidance
strings, and a weekly cut of `round((deficit) / 4.33, 2)`; at the example
request (income 2000, rent 1800, misc 500) the report has
`total_spend = 2300`, `net_cash_flow = -300`, and weekly cut `69.28`. -/
theorem deficit_rec_spec (req : BudgetRequest) (h : netCashFlow req < 0) :
    Recommendation.deficit |netCashFlow req| deficitSteps
        (round2 (|netCashFlow req| / (433/100))) ∈ (compute_budget req).recommendations ∧
    deficitSteps.length = 3 ∧
    (compute_budget reqDeficit).total_spend = 2300 ∧
    (compute_budget reqDeficit).net_cash_flow = -300 ∧
    deficitWeekly (compute_budget reqDeficit).recommendations = some (6928/100) := by
  have hlist : recsList reqDeficit =
      [Recommendation.needs_over_target 800 needsSteps,
       Recommendation.deficit 300 deficitSteps (6928/100)] := by
    norm_num [recsList, reqDeficit, pctsSum, needsTarget, wantsTarget, needsActual,
      wantsActual, netCashFlow, incomeR, totalSpend, fixedTotal, variableTotal,
      sumItems, round2, rhe]
  refine ⟨?_, rfl, ?_, ?_, ?_⟩
  · show _ ∈ recsList req
    unfold recsList
    refine List.mem_append_right _ ?_
    rw [if_pos h]
    exact List.mem_singleton_self _
  · norm_num [compute_budget, reqDeficit, totalSpend, fixedTotal, variableTotal,
      sumItems, round2, rhe]
  · norm_num [compute_budget, reqDeficit, netCashFlow, incomeR, totalSpend,
      fixedTotal, variableTotal, sumItems, round2, rhe]
  · show deficitWeekly (recsList reqDeficit) = _
    rw [hlist]
    rfl

/-- Witness for C2 at the example deficit request. -/
theorem deficit_rec_spec_witness :
    netCashFlow reqDeficit < 0 ∧
    Recommendation.deficit |netCashFlow reqDeficit| deficitSteps
        (round2 (|netCashFlow reqDeficit| / (433/100)))
      ∈ (compute_budget reqDeficit).recommendations := by
  have hneg : netCashFlow reqDeficit < 0 := by
    norm_num [reqDeficit, netCashFlow, incomeR, totalSpend, fixedTotal,
      variableTotal, sumItems, round2, rhe]
  exact ⟨hneg, (deficit_rec_spec reqDeficit hneg).1⟩

/-- Counterexample to C2 as stated: at the example request the weekly cut
is `round(300 / 4.33, 2) = 69.28`, which is strictly below the claimed
`69.29`. -/
theorem deficit_weekly_cx :
    deficitWeekly (compute_budget reqDeficit).recommendations = some (6928/100) ∧
    ((6928 : ℚ)/100) < ((6929 : ℚ)/100) := by
  constructor
  · show deficitWeekly (recsList reqDeficit) = _
    have hlist : recsList reqDeficit =
        [Recommendation.needs_over_target 800 needsSteps,
         Recommendation.deficit 300 deficitSteps (6928/100)] := by
      norm_num [recsList, reqDeficit, pctsSum, needsTarget, wantsTarget, needsActual,
        wantsActual, netCashFlow, incomeR, totalSpend, fixedTotal, variableTotal,
        sumItems, round2, rhe]
    rw [hlist]
    rfl
  · norm_num

/-- C6: the recommendations list is built in the fixed order warning,
needs_over_target, wants_over_target, then deficit-or-surplus, each of
the first three present exactly when its condition holds, and exactly one
of deficit and surplus is present. -/
theorem recs_order_spec (req : BudgetRequest) :
    (compute_budget req).recommendations.map tagOf =
      (if pctsSum req ≠ 1 then [RecTag.warnTag] else [])
      ++ (if needsTarget req < needsActual req then [RecTag.needsTag] else [])
      ++ (if wantsTarget req < wantsActual req then [RecTag.wantsTag] else [])
      ++ [if netCashFlow req < 0 then RecTag.deficitTag else RecTag.surplusTag] ∧
    ((compute_budget req).recommendations.map tagOf).count RecTag.deficitTag
      + ((compute_budget req).recommendations.map tagOf).count RecTag.surplusTag = 1 := by
  have hmap : (compute_budget req).recommendations.map tagOf =
      (if pctsSum req ≠ 1 then [RecTag.warnTag] else [])
      ++ (if needsTarget req < needsActual req then [RecTag.needsTag] else [])
      ++ (if wantsTarget req < wantsActual req then [RecTag.wantsTag] else [])
      ++ [if netCashFlow req < 0 then RecTag.deficitTag else RecTag.surplusTag] := by
    show (recsList req).map tagOf = _
    unfold recsList
    split_ifs <;> simp [tagOf]
  refine ⟨hmap, ?_⟩
  rw [hmap]
  split_ifs <;> simp [List.count_append, List.count_cons, List.count_nil]

/-- C5 (amended): for a request with empty expense lists, non-negative
income exact to 2 decimal places, and non-negative needs/wants
percentages, the report has `total_spend = 0`, `net_cash_flow` equal to
the income, `savings_actual` equal to the income when it is positive, no
needs_over_target or wants_over_target recommendation, and a surplus
recommendation. -/
theorem empty_expenses_spec (req : BudgetRequest)
    (hfix : req.fixed_expenses = []) (hvar : req.variable_expenses = [])
    (hI0 : 0 ≤ req.monthly_after_tax_income)
    (hIc : round2 req.monthly_after_tax_income = req.monthly_after_tax_income)
    (hnp : 0 ≤ req.target_needs_pct) (hwp : 0 ≤ req.target_wants_pct) :
    (compute_budget req).total_spend = 0 ∧
    (compute_budget req).net_cash_flow = req.monthly_after_tax_income ∧
    (0 < req.monthly_after_tax_income →
      (compute_budget req).savings_actual = req.monthly_after_tax_income) ∧
    (∀ r ∈ (compute_budget req).recommendations,
      tagOf r ≠ RecTag.needsTag ∧ tagOf r ≠ RecTag.wantsTag) ∧
    (∃ r ∈ (compute_budget req).recommendations, tagOf r = RecTag.surplusTag) := by
  have hft : fixedTotal req = 0 := by
    unfold fixedTotal sumItems
    rw [hfix]
    simpa using round2_zero
  have hvt : variableTotal req = 0 := by
    unfold variableTotal sumItems
    rw [hvar]
    simpa using round2_zero
  have hts : totalSpend req = 0 := by
    unfold totalSpend
    rw [hft, hvt]
    simpa using round2_zero
  have hinc : incomeR req = req.monthly_after_tax_income := hIc
  have hncf : netCashFlow req = req.monthly_after_tax_income := by
    unfold netCashFlow
    rw [hts, hinc, sub_zero, hIc]
  have hneeds : ¬ needsTarget req < needsActual req := by
    rw [not_lt]
    unfold needsActual
    rw [hft]
    exact round2_nonneg (mul_nonneg (hinc ▸ hI0) hnp)
  have hwants : ¬ wantsTarget req < wantsActual req := by
    rw [not_lt]
    unfold wantsActual
    rw [hvt]
    exact round2_nonneg (mul_nonneg (hinc ▸ hI0) hwp)
  have hnd : ¬ netCashFlow req < 0 := by
    rw [not_lt, hncf]
    exact hI0
  have hlist : recsList req =
      (if pctsSum req ≠ 1 then [Recommendation.warning warnMsg] else [])
      ++ [Recommendation.surplus (netCashFlow req) surplusSteps] := by
    unfold recsList
    rw [if_neg hneeds, if_neg hwants, if_neg hnd]
    simp
  refine ⟨hts, hncf, ?_, ?_, ?_⟩
  · intro hpos
    show round2 (savingsActual req) = _
    unfold savingsActual
    rw [hncf, max_eq_right hI0, hIc]
  · intro r hr
    have hr' : r ∈ recsList req := hr
    rw [hlist] at hr'
    rcases List.mem_append.mp hr' with h | h
    · rcases Decidable.em (pctsSum req ≠ 1) with hc | hc
      · rw [if_pos hc] at h
        rw [List.mem_singleton.mp h]
        exact ⟨by simp [tagOf], by simp [tagOf]⟩
      · rw [if_neg hc] at h
        exact absurd h (List.not_mem_nil r)
    · rw [List.mem_singleton.mp h]
      exact ⟨by simp [tagOf], by simp [tagOf]⟩
  · refine ⟨Recommendation.surplus (netCashFlow req) surplusSteps, ?_, rfl⟩
    show _ ∈ recsList req
    rw [hlist]
    exact List.mem_append_right _ (List.mem_singleton_self _)

/-- Witness for C5: income 50, empty expense lists, default percentages. -/
theorem empty_expenses_spec_witness :
    (0 : ℚ) ≤ 50 ∧
    (compute_budget { monthly_after_tax_income := 50 }).total_spend = 0 ∧
    (compute_budget { monthly_after_tax_income := 50 }).net_cash_flow = 50 := by
  have h := empty_expenses_spec { monthly_after_tax_income := 50 } rfl rfl
    (by norm_num) (by norm_num [round2, rhe]) (by norm_num) (by norm_num)
  exact ⟨by norm_num, h.1, h.2.1⟩

/-- Counterexample to C5 as stated: for the non-negative income `1/400`
(0.0025, not an exact 2-decimal amount) with empty expense lists,
`net_cash_flow` is `0`, strictly below the income. -/
theorem empty_expenses_cx :
    (compute_budget { monthly_after_tax_income := 1/400 }).net_cash_flow = 0 ∧
    (0 : ℚ) < (1 : ℚ)/400 := by
  refine ⟨?_, by norm_num⟩
  norm_num [compute_budget, netCashFlow, incomeR, totalSpend, fixedTotal,
    variableTotal, sumItems, round2, rhe]

/-- C7: a warning recommendation is present exactly when the three target
percentages do not sum to exactly 1, and when present it is the first
recommendation. -/
theorem warning_rec_spec (req : BudgetRequest) :
    ((∃ r ∈ (compute_budget req).recommendations, tagOf r = RecTag.warnTag)
      ↔ pctsSum req ≠ 1) ∧
    (pctsSum req ≠ 1 →
      (compute_budget req).recommendations.head? = some (.warning warnMsg)) := by
  constructor
  · constructor
    · rintro ⟨r, hr, htag⟩
      intro heq
      have hr' : r ∈ recsList req := hr
      unfold recsList at hr'
      rw [heq] at hr'
      simp only [ne_eq, not_true_eq_false, if_false, List.nil_append] at hr'
      rcases List.mem_append.mp hr' with h | h
      · rcases List.mem_append.mp h with h2 | h2
        · split_ifs at h2 with hc
          · rw [List.mem_singleton.mp h2] at htag
            simp [tagOf] at htag
          · exact absurd h2 (List.not_mem_nil r)
        · split_ifs at h2 with hc
          · rw [List.mem_singleton.mp h2] at htag
            simp [tagOf] at htag
          · exact absurd h2 (List.not_mem_nil r)
      · split_ifs at h with hc
        · rw [List.mem_singleton.mp h] at htag
          simp [tagOf] at htag
        · rw [List.mem_singleton.mp h] at htag
          simp [tagOf] at htag
    · intro hne
      refine ⟨Recommendation.warning warnMsg, ?_, rfl⟩
      show _ ∈ recsList req
      unfold recsList
      refine List.mem_append_left _ (List.mem_append_left _ (List.mem_append_left _ ?_))
      rw [if_pos hne]
      exact List.mem_singleton_self _
  · intro hne
    show (recsList req).head? = _
    unfold recsList
    rw [if_pos hne]
    rfl

/-- A request whose target percentages are 0.5 / 0.5 / 0.5 (sum 1.5). -/
def reqHalfPcts : BudgetRequest :=
  { monthly_after_tax_income := 100,
    target_needs_pct := 1/2,
    target_wants_pct := 1/2,
    target_savings_pct := 1/2 }

/-- Witness for C7: percentages 0.5 / 0.5 / 0.5 sum to 1.5, so the
warning leads the list. -/
theorem warning_rec_spec_witness :
    pctsSum reqHalfPcts ≠ 1 ∧
    (compute_budget reqHalfPcts).recommendations.head? = some (.warning warnMsg) := by
  have hne : pctsSum reqHalfPcts ≠ 1 := by
    norm_num [pctsSum, reqHalfPcts]
  exact ⟨hne, (warning_rec_spec reqHalfPcts).2 hne⟩

/-- The comparator `amountGE` is transitive. -/
theorem amountGE_trans (a b c : BudgetLineItem) :
    amountGE a b → amountGE b c → amountGE a c := by
  simp only [amountGE, decide_eq_true_eq]
  exact fun h1 h2 => le_trans h2 h1

/-- The comparator `amountGE` is total. -/
theorem amountGE_total (a b : BudgetLineItem) : amountGE a b || amountGE b a := by
  simp only [amountGE, Bool.or_eq_true, decide_eq_true_eq]
  exact le_total b.amount a.amount

/-- The stable descending sort underlying `_top_items` keeps items of any
given amount in their original relative order. -/
theorem mergeSort_amount_stable (items : List BudgetLineItem) (q : ℚ) :
    (items.mergeSort amountGE).filter (fun i => decide (i.amount = q))
      = items.filter (fun i => decide (i.amount = q)) := by
  set p : BudgetLineItem → Bool := fun i => decide (i.amount = q) with hp
  have hpw : (items.filter p).Pairwise (fun a b => amountGE a b) := by
    apply List.pairwise_of_forall_mem_list
    intro a ha b hb
    have ha' : a.amount = q := by
      have := (List.mem_filter.mp ha).2
      rwa [hp, decide_eq_true_eq] at this
    have hb' : b.amount = q := by
      have := (List.mem_filter.mp hb).2
      rwa [hp, decide_eq_true_eq] at this
    simp [amountGE, ha', hb']
  have hsl : List.Sublist (items.filter p) (items.mergeSort amountGE) :=
    List.sublist_mergeSort amountGE_trans amountGE_total hpw (List.filter_sublist items)
  have hsl2 : List.Sublist ((items.filter p).filter p)
      ((items.mergeSort amountGE).filter p) := hsl.filter p
  rw [List.filter_eq_self.mpr (fun a ha => (List.mem_filter.mp ha).2)] at hsl2
  have hperm : List.Perm ((items.mergeSort amountGE).filter p) (items.filter p) :=
    (List.mergeSort_perm items amountGE).filter p
  exact ((hsl2.eq_of_length hperm.length_eq.symm).symm)

/-- C4: whenever the wants_over_target recommendation fires, its
`top_variable_items` list is `_top_items` of the variable expenses: it has
length `min 5 n`, each listed amount is a rounded 2-decimal figure of the
corresponding sorted item, the list is sorted by amount descending, and
the underlying sort is stable (items of equal amount keep their original
relative order). -/
theorem top_items_spec (req : BudgetRequest)
    (h : wantsTarget req < wantsActual req) :
    wantsItems (compute_budget req).recommendations
      = some (topItems req.variable_expenses 5) ∧
    topItems req.variable_expenses 5
      = ((req.variable_expenses.mergeSort amountGE).take 5).map
          (fun i => ⟨i.name, round2 i.amount⟩) ∧
    (topItems req.variable_expenses 5).length = min 5 req.variable_expenses.length ∧
    (topItems req.variable_expenses 5).Pairwise (fun a b => b.amount ≤ a.amount) ∧
    (∀ q : ℚ, (req.variable_expenses.mergeSort amountGE).filter
        (fun i => decide (i.amount = q))
      = req.variable_expenses.filter (fun i => decide (i.amount = q))) ∧
    (∀ t ∈ topItems req.variable_expenses 5, IsCent t.amount) := by
  refine ⟨?_, rfl, ?_, ?_, mergeSort_amount_stable req.variable_expenses, ?_⟩
  · show wantsItems (recsList req) = _
    unfold recsList
    rw [if_pos h]
    split_ifs <;> rfl
  · simp [topItems, Nat.min_comm]
  · have hsorted : (req.variable_expenses.mergeSort amountGE).Pairwise
        (fun a b => amountGE a b) :=
      List.sorted_mergeSort amountGE_trans amountGE_total req.variable_expenses
    have htake : ((req.variable_expenses.mergeSort amountGE).take 5).Pairwise
        (fun a b => amountGE a b) :=
      hsorted.sublist (List.take_sublist 5 _)
    unfold topItems
    rw [List.pairwise_map]
    refine htake.imp ?_
    intro a b hab
    have : b.amount ≤ a.amount := by
      rwa [amountGE, decide_eq_true_eq] at hab
    exact round2_mono this
  · intro t ht
    unfold topItems at ht
    obtain ⟨i, _, hi⟩ := List.mem_map.mp ht
    rw [← hi]
    exact round2_isCent i.amount

/-- The witness request for C4: income 1000, wants over target with two
variable items. -/
def reqWants : BudgetRequest :=
  { monthly_after_tax_income := 1000,
    variable_expenses := [⟨"dining", 400⟩, ⟨"shopping", 300⟩] }

/-- Witness for C4 at `reqWants`, where wants_actual 700 exceeds
wants_target 300. -/
theorem top_items_spec_witness :
    wantsTarget reqWants < wantsActual reqWants ∧
    wantsItems (compute_budget reqWants).recommendations
      = some (topItems reqWants.variable_expenses 5) ∧
    (topItems reqWants.variable_expenses 5).length
      = min 5 reqWants.variable_expenses.length := by
  have hlt : wantsTarget reqWants < wantsActual reqWants := by
    norm_num [reqWants, wantsTarget, wantsActual, incomeR, variableTotal,
      sumItems, round2, rhe]
  have h := top_items_spec reqWants hlt
  exact ⟨hlt, h.1, h.2.2.1⟩
